import Mathlib

/-!
Verification of the ns-3 UAN address translator
(`src/ns-3.25/src/uan/model/uan-address-translator.cc`), a bidirectional
cache between 48-bit hardware (`Mac48Address`) addresses and 8-bit UAN
short addresses (`UanAddress`).

A hardware address is modelled as its list of six bytes (most significant
first); a short address as a natural number (one byte).  The translator's
two unordered maps are modelled as association lists, and the two static
ns-3 address allocators as counters carried in the state.
-/

namespace UanTranslator

/-- The hardware broadcast sentinel `ff:ff:ff:ff:ff:ff`, as its six bytes. -/
def macBroadcast : List Nat := [255, 255, 255, 255, 255, 255]

/-- The short-address broadcast sentinel `UanAddress::GetBroadcast()`:
the 8-bit value with all bits set. -/
def uanBroadcast : Nat := 255

/-- The `storeMap` key computed by `AddressTranslator::translate` and
`AddressTranslator::remove`: the code copies the six address bytes into
`char buff[6]` and builds `std::string key = buff`, which reads `buff` as a
NUL-terminated C string.  The key is therefore the maximal zero-free prefix
of the address bytes, not the full address. -/
def macKey (addr : List Nat) : List Nat := addr.takeWhile (fun b => b != 0)

/-- Association-list lookup (models `std::unordered_map::find`). -/
def alookup {α β : Type} [DecidableEq α] : List (α × β) → α → Option β
  | [], _ => none
  | (k, v) :: rest, key => if key = k then some v else alookup rest key

/-- Association-list erase (models `std::unordered_map::erase`). -/
def aerase {α β : Type} [DecidableEq α] : List (α × β) → α → List (α × β)
  | [], _ => []
  | (k, v) :: rest, key =>
      if key = k then aerase rest key else (k, v) :: aerase rest key

/-- Association-list overwrite-insert (models `map[key] = value`). -/
def ainsert {α β : Type} [DecidableEq α] (l : List (α × β)) (key : α) (v : β) :
    List (α × β) :=
  (key, v) :: aerase l key

/-- The translator's state: the two tables of `AddressTranslator`
(`storeMap : unordered_map<string, UanAddress>`, keyed by the C-string key,
and `getMap : unordered_map<uint8_t, Mac48Address>`, keyed by the short
address byte) together with the counters of the two static ns-3 address
allocators. -/
structure TranslatorState where
  storeMap : List (List Nat × Nat)
  getMap : List (Nat × List Nat)
  nextUan : Nat
  nextMac : Nat
deriving DecidableEq

/-- A freshly constructed translator at program start: both tables empty,
no short address allocated yet, and the first hardware address the ns-3
allocator would mint is `00:00:00:00:00:01` (counter 1). -/
def emptyState : TranslatorState :=
  { storeMap := [], getMap := [], nextUan := 0, nextMac := 1 }

/-- Modelled from the spec: `UanAddress::Allocate` is not under `src/`.
Per §4.1 and §7 the short-address allocator is deterministic and monotonic
and fails with `AddressSpaceExhausted` once every representable
non-broadcast short address (the 255 byte values 0..254; 255 is the
broadcast sentinel) has been assigned; `none` models that failure. -/
def uanAllocate (st : TranslatorState) : Option (Nat × TranslatorState) :=
  if st.nextUan < 255 then
    some (st.nextUan, { st with nextUan := st.nextUan + 1 })
  else none

/-- Modelled from the spec: `Mac48Address::Allocate` is not under `src/`.
Per §4.1 the hardware-address allocator is deterministic and monotonic; the
n-th allocation yields the 48-bit value n, written as six bytes, most
significant first (so the first allocated address is `00:00:00:00:00:01`). -/
def macOfCounter (n : Nat) : List Nat :=
  [n / 2 ^ 40 % 256, n / 2 ^ 32 % 256, n / 2 ^ 24 % 256,
   n / 2 ^ 16 % 256, n / 2 ^ 8 % 256, n % 256]

/-- Shallow embedding of `AddressTranslator::translate` (lines 31-50 of
`uan-address-translator.cc`).  Returns the short address handed to the
caller together with the post-call state; `none` in the first component is
the spec-modelled `AddressSpaceExhausted` allocation failure, which happens
before any table is touched. -/
def translate (st : TranslatorState) (addr : List Nat) :
    Option Nat × TranslatorState :=
  if addr = macBroadcast then (some uanBroadcast, st)
  else
    match alookup st.storeMap (macKey addr) with
    | some u => (some u, st)
    | none =>
        match uanAllocate st with
        | none => (none, st)
        | some (translated, st1) =>
            (some translated,
             { st1 with
                 storeMap := ainsert st1.storeMap (macKey addr) translated,
                 getMap := ainsert st1.getMap translated addr })

/-- Shallow embedding of `AddressTranslator::getM48` (lines 53-71).  On the
final path the C++ function allocates a placeholder hardware address and
inserts the pair into both tables but then reaches the end of the non-void
function without a `return` statement; the value handed to the caller on
that path is therefore modelled as `none`. -/
def getM48 (st : TranslatorState) (addr : Nat) :
    Option (List Nat) × TranslatorState :=
  if addr = uanBroadcast then (some macBroadcast, st)
  else
    match alookup st.getMap addr with
    | some m => (some m, st)
    | none =>
        (none,
         { st with
             nextMac := st.nextMac + 1,
             getMap := ainsert st.getMap addr (macOfCounter st.nextMac),
             storeMap :=
               ainsert st.storeMap (macKey (macOfCounter st.nextMac)) addr })

/-- Shallow embedding of `AddressTranslator::remove` (lines 73-85): erase
the record under the C-string key from `storeMap` and the record under the
stored short address from `getMap`; nothing happens when the key is
absent. -/
def remove (st : TranslatorState) (addr : List Nat) : TranslatorState :=
  match alookup st.storeMap (macKey addr) with
  | some u =>
      { st with
          storeMap := aerase st.storeMap (macKey addr),
          getMap := aerase st.getMap u }
  | none => st

/-! ### Association-list lemmas -/

theorem alookup_ainsert {α β : Type} [DecidableEq α] (l : List (α × β)) (k : α)
    (v : β) : alookup (ainsert l k v) k = some v := by
  simp [ainsert, alookup]

theorem alookup_aerase {α β : Type} [DecidableEq α] (l : List (α × β)) (k : α) :
    alookup (aerase l k) k = none := by
  induction l with
  | nil => rfl
  | cons p rest ih =>
      obtain ⟨a, b⟩ := p
      by_cases hak : k = a
      · simpa [aerase, hak] using ih
      · simp [aerase, alookup, hak, ih]

/-! ### One lemma per branch of the three operations -/

theorem translate_bcast (st : TranslatorState) :
    translate st macBroadcast = (some uanBroadcast, st) := rfl

theorem getM48_bcast (st : TranslatorState) :
    getM48 st uanBroadcast = (some macBroadcast, st) := rfl

theorem translate_hit (st : TranslatorState) (h : List Nat) (u : Nat)
    (hb : h ≠ macBroadcast) (hl : alookup st.storeMap (macKey h) = some u) :
    translate st h = (some u, st) := by
  unfold translate
  rw [if_neg hb, hl]

theorem getM48_hit (st : TranslatorState) (s : Nat) (m : List Nat)
    (hb : s ≠ uanBroadcast) (hl : alookup st.getMap s = some m) :
    getM48 st s = (some m, st) := by
  unfold getM48
  rw [if_neg hb, hl]

theorem translate_fresh (st : TranslatorState) (h : List Nat)
    (hb : h ≠ macBroadcast) (hl : alookup st.storeMap (macKey h) = none)
    (hcap : st.nextUan < 255) :
    translate st h =
      (some st.nextUan,
       { storeMap := ainsert st.storeMap (macKey h) st.nextUan,
         getMap := ainsert st.getMap st.nextUan h,
         nextUan := st.nextUan + 1,
         nextMac := st.nextMac }) := by
  unfold translate uanAllocate
  rw [if_neg hb, hl, if_pos hcap]

theorem translate_noalloc (st : TranslatorState) (h : List Nat)
    (hb : h ≠ macBroadcast) (hl : alookup st.storeMap (macKey h) = none)
    (hcap : ¬ st.nextUan < 255) :
    translate st h = (none, st) := by
  unfold translate uanAllocate
  rw [if_neg hb, hl, if_neg hcap]

theorem getM48_fresh (st : TranslatorState) (s : Nat)
    (hb : s ≠ uanBroadcast) (hl : alookup st.getMap s = none) :
    getM48 st s =
      (none,
       { storeMap := ainsert st.storeMap (macKey (macOfCounter st.nextMac)) s,
         getMap := ainsert st.getMap s (macOfCounter st.nextMac),
         nextUan := st.nextUan,
         nextMac := st.nextMac + 1 }) := by
  unfold getM48
  rw [if_neg hb, hl]

theorem remove_found (st : TranslatorState) (h : List Nat) (u : Nat)
    (hl : alookup st.storeMap (macKey h) = some u) :
    remove st h =
      { storeMap := aerase st.storeMap (macKey h),
        getMap := aerase st.getMap u,
        nextUan := st.nextUan,
        nextMac := st.nextMac } := by
  unfold remove
  rw [hl]

theorem remove_notfound (st : TranslatorState) (h : List Nat)
    (hl : alookup st.storeMap (macKey h) = none) : remove st h = st := by
  unfold remove
  rw [hl]

/-- After a successful `translate` call returning `u`, the updated state's
`storeMap` holds `u` under the C-string key of the translated address. -/
theorem translate_store_lookup (st st' : TranslatorState) (h : List Nat)
    (u : Nat) (hb : h ≠ macBroadcast) (hc : translate st h = (some u, st')) :
    alookup st'.storeMap (macKey h) = some u := by
  cases hlk : alookup st.storeMap (macKey h) with
  | some u0 =>
      rw [translate_hit st h u0 hb hlk] at hc
      injection hc with h1 h2
      injection h1 with h1
      subst h1
      subst h2
      exact hlk
  | none =>
      by_cases hcap : st.nextUan < 255
      · rw [translate_fresh st h hb hlk hcap] at hc
        injection hc with h1 h2
        injection h1 with h1
        subst h1
        subst h2
        exact alookup_ainsert _ _ _
      · rw [translate_noalloc st h hb hlk hcap] at hc
        injection hc with h1 h2
        exact absurd h1 (by simp)

/-! ### Concrete scenario states used by the claim theorems -/

/-- State after `translateToHardware(1)` and `translateToHardware(2)` on a
fresh translator: `getMap` holds two placeholder records while `storeMap`
holds a single entry, both placeholders' C-string keys being empty. -/
def dualityState : TranslatorState := (getM48 (getM48 emptyState 1).2 2).2

/-- State after `translateToShort(00:00:00:00:00:01)` on a fresh
translator. -/
def idemState1 : TranslatorState := (translate emptyState [0, 0, 0, 0, 0, 1]).2

/-- State after additionally `translateToHardware(5)`, whose placeholder's
C-string key collides with the record of `00:00:00:00:00:01`. -/
def idemState2 : TranslatorState := (getM48 idemState1 5).2

/-- State holding one ordinary record, for `00:11:22:33:44:55`
(bytes `[0x00, 0x11, ...]` would truncate, so a zero-free address is used). -/
def recordState : TranslatorState :=
  (translate emptyState [1, 2, 3, 4, 5, 6]).2

/-- A state in which the spec-modelled short-address allocator is
exhausted: all 255 representable non-broadcast short addresses assigned. -/
def exhaustedState : TranslatorState :=
  { storeMap := [], getMap := [], nextUan := 255, nextMac := 1 }

/-! ### The claims -/

/-- C1: the claim says `getM48` on an unseen non-broadcast short address
allocates a hardware address, records the pair in both tables, and returns
the allocated address to the caller.  The code does record the pair, but
its allocation path ends without a `return` statement, so no value reaches
the caller: evaluated at short address 5 on a fresh translator, both table
entries exist yet the returned value is `none`. -/
theorem getM48_missing_return :
    (getM48 emptyState 5).1 = none ∧
    alookup (getM48 emptyState 5).2.getMap 5 = some (macOfCounter 1) ∧
    alookup (getM48 emptyState 5).2.storeMap (macKey (macOfCounter 1)) =
      some 5 := by
  decide

/-- C2: the claim says forward and reverse tables always form a bijection
and are exact duals.  Violated: after `translateToHardware(1)` and
`translateToHardware(2)` on a fresh translator, the reverse table holds the
records `1 ↦ 00:00:00:00:00:01` and `2 ↦ 00:00:00:00:00:02`, but both
placeholders share the empty C-string key, so the forward table holds a
single entry and `translateToShort(00:00:00:00:00:01)` returns 2, not 1. -/
theorem duality_violated :
    alookup dualityState.getMap 1 = some [0, 0, 0, 0, 0, 1] ∧
    (translate dualityState [0, 0, 0, 0, 0, 1]).1 = some 2 ∧
    (2 : Nat) ≠ 1 ∧
    dualityState.storeMap.length = 1 ∧
    dualityState.getMap.length = 2 := by
  decide

/-- C3: the claim says N distinct non-broadcast hardware addresses
translated without removal receive pairwise-distinct short addresses.
Violated at N = 2: `00:00:00:00:00:01` and `00:00:00:00:00:02` are distinct
and non-broadcast, but both truncate to the empty C-string key, so the
second `translateToShort` is a cache hit on the first's record and both
calls return short address 0. -/
theorem uniqueness_violated :
    ([0, 0, 0, 0, 0, 1] : List Nat) ≠ [0, 0, 0, 0, 0, 2] ∧
    ([0, 0, 0, 0, 0, 1] : List Nat) ≠ macBroadcast ∧
    ([0, 0, 0, 0, 0, 2] : List Nat) ≠ macBroadcast ∧
    (translate emptyState [0, 0, 0, 0, 0, 1]).1 = some 0 ∧
    (translate (translate emptyState [0, 0, 0, 0, 0, 1]).2
      [0, 0, 0, 0, 0, 2]).1 = some 0 := by
  decide

/-- C4: the claim says repeated `translateToShort(h)` calls return the same
short address until `h` is removed.  Violated with no intervening `remove`:
`translateToShort(00:00:00:00:00:01)` returns 0, an unrelated
`translateToHardware(5)` then allocates the placeholder `00:00:00:00:00:01`
whose empty C-string key overwrites the record, and the repeated
`translateToShort(00:00:00:00:00:01)` returns 5. -/
theorem idempotence_violated :
    (translate emptyState [0, 0, 0, 0, 0, 1]).1 = some 0 ∧
    (translate idemState2 [0, 0, 0, 0, 0, 1]).1 = some 5 ∧
    some (5 : Nat) ≠ some 0 := by
  decide

/-- C5: in every table state, translating the hardware broadcast sentinel
yields the short broadcast sentinel and conversely, and neither call
changes the state (no record is created or touched). -/
theorem broadcast_transparent (st : TranslatorState) :
    translate st macBroadcast = (some uanBroadcast, st) ∧
    getM48 st uanBroadcast = (some macBroadcast, st) :=
  ⟨translate_bcast st, getM48_bcast st⟩

/-- C6: if a record for `h` exists, `remove(h)` erases it from both tables
(the key of `h` and the stored short address look up to nothing
afterwards); if none exists, `remove(h)` is a no-op leaving the state
unchanged; and afterwards a `translateToShort(h)` (non-broadcast, allocator
not exhausted) allocates afresh. -/
theorem remove_both_tables (st : TranslatorState) (h : List Nat) :
    (alookup st.storeMap (macKey h) = none → remove st h = st) ∧
    (∀ u, alookup st.storeMap (macKey h) = some u →
      alookup (remove st h).storeMap (macKey h) = none ∧
      alookup (remove st h).getMap u = none) ∧
    (h ≠ macBroadcast → (remove st h).nextUan < 255 →
      (translate (remove st h) h).1 = some (remove st h).nextUan) := by
  refine ⟨remove_notfound st h, ?_, ?_⟩
  · intro u hu
    rw [remove_found st h u hu]
    exact ⟨alookup_aerase _ _, alookup_aerase _ _⟩
  · intro hb hcap
    have hnone : alookup (remove st h).storeMap (macKey h) = none := by
      cases hlk : alookup st.storeMap (macKey h) with
      | none => rw [remove_notfound st h hlk]; exact hlk
      | some u => rw [remove_found st h u hlk]; exact alookup_aerase _ _
    rw [translate_fresh (remove st h) h hb hnone hcap]

/-- Witness for C6, on a translator holding the record for
`01:02:03:04:05:06` (and on the empty translator for the no-op part). -/
theorem remove_both_tables_witness :
    alookup (remove recordState [1, 2, 3, 4, 5, 6]).storeMap
      (macKey [1, 2, 3, 4, 5, 6]) = none ∧
    alookup (remove recordState [1, 2, 3, 4, 5, 6]).getMap 0 = none ∧
    remove emptyState [7, 7, 7, 7, 7, 7] = emptyState ∧
    (translate (remove recordState [1, 2, 3, 4, 5, 6]) [1, 2, 3, 4, 5, 6]).1 =
      some (remove recordState [1, 2, 3, 4, 5, 6]).nextUan :=
  ⟨((remove_both_tables recordState [1, 2, 3, 4, 5, 6]).2.1 0 (by decide)).1,
   ((remove_both_tables recordState [1, 2, 3, 4, 5, 6]).2.1 0 (by decide)).2,
   (remove_both_tables emptyState [7, 7, 7, 7, 7, 7]).1 (by decide),
   (remove_both_tables recordState [1, 2, 3, 4, 5, 6]).2.2 (by decide)
     (by decide)⟩

/-- C7: when every representable non-broadcast short address has been
assigned (the spec-modelled allocator is exhausted), a `translateToShort`
call that needs a new allocation (non-broadcast, no existing record) fails
with `AddressSpaceExhausted` and leaves the whole state — both tables —
unchanged. -/
theorem translate_exhausted (st : TranslatorState) (h : List Nat)
    (hb : h ≠ macBroadcast) (hl : alookup st.storeMap (macKey h) = none)
    (hex : 255 ≤ st.nextUan) :
    translate st h = (none, st) :=
  translate_noalloc st h hb hl (by omega)

/-- Witness for C7, on an exhausted translator and the hardware address
`01:02:03:04:05:06`. -/
theorem translate_exhausted_witness :
    translate exhaustedState [1, 2, 3, 4, 5, 6] = (none, exhaustedState) :=
  translate_exhausted exhaustedState [1, 2, 3, 4, 5, 6] (by decide)
    (by decide) (by decide)

/-- C8: two distinct non-broadcast hardware addresses with the same
C-string key (byte sequences agreeing up to and including the first zero
byte) are treated as one key: once the first is translated to `u`,
translating the second is a cache hit returning the same `u` with no state
change, and `remove` of the second erases the first's record. -/
theorem key_collision (st st' : TranslatorState) (m1 m2 : List Nat) (u : Nat)
    (hne : m1 ≠ m2) (hk : macKey m1 = macKey m2)
    (hb1 : m1 ≠ macBroadcast) (hb2 : m2 ≠ macBroadcast)
    (hc : translate st m1 = (some u, st')) :
    translate st' m2 = (some u, st') ∧
    alookup (remove st' m2).storeMap (macKey m1) = none := by
  have hl : alookup st'.storeMap (macKey m1) = some u :=
    translate_store_lookup st st' m1 u hb1 hc
  have hl2 : alookup st'.storeMap (macKey m2) = some u := hk ▸ hl
  refine ⟨translate_hit st' m2 u hb2 hl2, ?_⟩
  rw [remove_found st' m2 u hl2, hk]
  exact alookup_aerase _ _

/-- Witness for C8, on the colliding pair `00:00:00:00:00:03` and
`00:00:00:00:00:04` (both keys are the empty string). -/
theorem key_collision_witness :
    translate (translate emptyState [0, 0, 0, 0, 0, 3]).2 [0, 0, 0, 0, 0, 4] =
      (some 0, (translate emptyState [0, 0, 0, 0, 0, 3]).2) ∧
    alookup (remove (translate emptyState [0, 0, 0, 0, 0, 3]).2
      [0, 0, 0, 0, 0, 4]).storeMap (macKey [0, 0, 0, 0, 0, 3]) = none :=
  key_collision emptyState (translate emptyState [0, 0, 0, 0, 0, 3]).2
    [0, 0, 0, 0, 0, 3] [0, 0, 0, 0, 0, 4] 0 (by decide) (by decide)
    (by decide) (by decide) (by decide)

/-- C9: cache hits are pure, each direction on its own.  In every state, a
non-broadcast hardware address with an existing forward record translates
to the stored short address with the whole state unchanged; and in every
state, a non-broadcast short address with an existing reverse record
translates back to the stored hardware address with the whole state
unchanged.  The two halves carry independent hypotheses: neither requires
the opposite table to hold anything. -/
theorem cache_hit_pure (st : TranslatorState) (h : List Nat) (u s : Nat)
    (m : List Nat) :
    (h ≠ macBroadcast → alookup st.storeMap (macKey h) = some u →
      translate st h = (some u, st)) ∧
    (s ≠ uanBroadcast → alookup st.getMap s = some m →
      getM48 st s = (some m, st)) :=
  ⟨translate_hit st h u, getM48_hit st s m⟩

/-- Witness for C9, on the translator holding the record
`01:02:03:04:05:06 ↔ 0`. -/
theorem cache_hit_pure_witness :
    translate recordState [1, 2, 3, 4, 5, 6] = (some 0, recordState) ∧
    getM48 recordState 0 = (some [1, 2, 3, 4, 5, 6], recordState) :=
  ⟨(cache_hit_pure recordState [1, 2, 3, 4, 5, 6] 0 0 [1, 2, 3, 4, 5, 6]).1
     (by decide) (by decide),
   (cache_hit_pure recordState [1, 2, 3, 4, 5, 6] 0 0 [1, 2, 3, 4, 5, 6]).2
     (by decide) (by decide)⟩

/-- C10: after `translateToHardware(s)` on a short address `s` unseen on
the hardware side allocates the placeholder `macOfCounter st.nextMac` and
records the pair, an immediately subsequent `translateToShort` of that
placeholder is a cache hit returning `s` and changing nothing. -/
theorem placeholder_roundtrip (st : TranslatorState) (s : Nat)
    (hsb : s ≠ uanBroadcast) (hg : alookup st.getMap s = none)
    (hmb : macOfCounter st.nextMac ≠ macBroadcast) :
    translate (getM48 st s).2 (macOfCounter st.nextMac) =
      (some s, (getM48 st s).2) := by
  rw [getM48_fresh st s hsb hg]
  exact translate_hit _ _ _ hmb (alookup_ainsert _ _ _)

/-- Witness for C10, on a fresh translator and short address 5: the
allocated placeholder is `00:00:00:00:00:01` and translating it back
returns 5. -/
theorem placeholder_roundtrip_witness :
    translate (getM48 emptyState 5).2 (macOfCounter emptyState.nextMac) =
      (some 5, (getM48 emptyState 5).2) :=
  placeholder_roundtrip emptyState 5 (by decide) (by decide) (by decide)

end UanTranslator
